import Mathlib

/-!
Shallow embedding of the `web_app_react` backend: the configuration loader
(`src/backend/src/config.py`, a pydantic `BaseSettings` subclass) and the
HTTP application (`src/backend/src/main.py`, a FastAPI app with two routes
and one CORS middleware).

Environments (the process environment and the optional `.env` file) are
modelled as association lists of string pairs.  Field lookup is
case-insensitive (`case_sensitive=False` in `model_config`), the process
environment takes priority over the `.env` file, and compiled-in defaults
apply when neither source supplies a field.  Integer fields are parsed from
their string form; `cors_origins` is parsed from a JSON-encoded list of
strings, as pydantic-settings does for complex field types.
-/

namespace WebApp

/-- Kind of a per-field validation error reported by settings construction. -/
inductive FieldErrorKind where
  | missing
  | intParse
  | listParse
deriving DecidableEq, Repr

/-- A validation error names the offending field, as pydantic does. -/
structure FieldError where
  field : String
  kind : FieldErrorKind
deriving DecidableEq, Repr

/-- The Settings record of `config.py`: seven flat fields. -/
structure Settings where
  database_url : String
  api_host : String
  api_port : Int
  cors_origins : List String
  secret_key : String
  algorithm : String
  access_token_expire_minutes : Int
deriving DecidableEq, Repr

/-- Lowercase a string character by character. -/
def lowerStr (s : String) : String := ⟨s.data.map Char.toLower⟩

/-- Case-insensitive lookup of a field name in an association list of
environment entries (`case_sensitive=False`). -/
def lookupCI : List (String × String) → String → Option String
  | [], _ => none
  | kv :: rest, name =>
      if lowerStr kv.1 = lowerStr name then some kv.2 else lookupCI rest name

/-- Raw value for a field: the process environment takes priority over the
`.env` file (pydantic-settings source ordering). -/
def getField (env dotenv : List (String × String)) (name : String) : Option String :=
  match lookupCI env name with
  | some v => some v
  | none => lookupCI dotenv name

/-- Numeric value of a decimal digit character. -/
def digitVal (c : Char) : Option Nat :=
  if '0' ≤ c ∧ c ≤ '9' then some (c.toNat - '0'.toNat) else none

/-- Accumulate a decimal number over a list of digit characters. -/
def parseDigitsAux : List Char → Nat → Option Nat
  | [], acc => some acc
  | c :: cs, acc =>
      match digitVal c with
      | some d => parseDigitsAux cs (acc * 10 + d)
      | none => none

/-- Parse a non-empty all-digit character list as a natural number. -/
def parseDigits : List Char → Option Nat
  | [] => none
  | cs => parseDigitsAux cs 0

/-- Parse a string as an integer (optional sign followed by digits),
modelling pydantic coercion of environment strings to `int` fields. -/
def parseIntStr (s : String) : Option Int :=
  match s.data with
  | '-' :: rest => (parseDigits rest).map (fun n => -(n : Int))
  | '+' :: rest => (parseDigits rest).map (fun n => (n : Int))
  | cs => (parseDigits cs).map (fun n => (n : Int))

/-- JSON insignificant whitespace. -/
def isJsonSpace (c : Char) : Bool :=
  c = ' ' || c = '\t' || c = '\n' || c = '\r'

/-- Discard leading JSON whitespace. -/
def trimLeft (cs : List Char) : List Char :=
  cs.dropWhile isJsonSpace

/-- Table of the two-character string escapes the model resolves. -/
def escTable : List (Char × Char) :=
  [('"', '"'), ('\\', '\\'), ('/', '/'),
   ('n', Char.ofNat 10), ('t', Char.ofNat 9), ('r', Char.ofNat 13)]

/-- Resolve a string escape character through the table. -/
def decodeEsc (c : Char) : Option Char :=
  (escTable.find? (fun p => p.1 = c)).map Prod.snd

/-- Scan the body of a quoted string literal (the opening quote already
consumed), accumulating content in reverse, and return the literal together
with the input following the closing quote. -/
def scanLiteral (acc : List Char) : List Char → Option (String × List Char)
  | [] => none
  | c :: rest =>
      if c = '"' then some (String.mk acc.reverse, rest)
      else if c = '\\' then
        match rest with
        | [] => none
        | e :: rest2 =>
            match decodeEsc e with
            | some ch => scanLiteral (ch :: acc) rest2
            | none => none
      else scanLiteral (c :: acc) rest

/-- Scan one or more comma-separated quoted strings up to the closing
bracket of the encoded list; `fuel` bounds the recursion by input length. -/
def scanItems : Nat → List Char → Option (List String × List Char)
  | 0, _ => none
  | fuel + 1, cs =>
      match trimLeft cs with
      | [] => none
      | c :: rest =>
          if c = '"' then
            match scanLiteral [] rest with
            | none => none
            | some (item, rem) =>
                match trimLeft rem with
                | [] => none
                | d :: rem2 =>
                    if d = ',' then
                      match scanItems fuel rem2 with
                      | none => none
                      | some (more, rem3) => some (item :: more, rem3)
                    else if d = ']' then some ([item], rem2)
                    else none
          else none

/-- Parse a string as a JSON-encoded list of strings, modelling how
pydantic-settings decodes an environment value for a `list[str]` field. -/
def parseStrList (s : String) : Option (List String) :=
  match trimLeft s.data with
  | [] => none
  | c :: rest =>
      if c = '[' then
        let body := trimLeft rest
        match body with
        | [] => none
        | d :: rest2 =>
            if d = ']' then
              if trimLeft rest2 = [] then some [] else none
            else
              match scanItems (body.length + 1) body with
              | none => none
              | some (items, rem) =>
                  if trimLeft rem = [] then some items else none
      else none

/-- Resolved `database_url` field: source value or default `"file:./dev.db"`. -/
def databaseUrlField (env dotenv : List (String × String)) : String :=
  (getField env dotenv "database_url").getD "file:./dev.db"

/-- Resolved `api_host` field: source value or default `"0.0.0.0"`. -/
def apiHostField (env dotenv : List (String × String)) : String :=
  (getField env dotenv "api_host").getD "0.0.0.0"

/-- Resolved `algorithm` field: source value or default `"HS256"`. -/
def algorithmField (env dotenv : List (String × String)) : String :=
  (getField env dotenv "algorithm").getD "HS256"

/-- Resolved `api_port` field: parsed integer, default `8000`, or a
validation error if the supplied string is not an integer. -/
def apiPortField (env dotenv : List (String × String)) : Except FieldError Int :=
  match getField env dotenv "api_port" with
  | none => .ok 8000
  | some s =>
      match parseIntStr s with
      | some n => .ok n
      | none => .error ⟨"api_port", .intParse⟩

/-- Resolved `cors_origins` field: decoded string list, default
`["http://localhost:3000"]`, or a validation error. -/
def corsOriginsField (env dotenv : List (String × String)) : Except FieldError (List String) :=
  match getField env dotenv "cors_origins" with
  | none => .ok ["http://localhost:3000"]
  | some s =>
      match parseStrList s with
      | some l => .ok l
      | none => .error ⟨"cors_origins", .listParse⟩

/-- Resolved `secret_key` field: it has no default, so absence from every
source is a `missing` validation error naming the field. -/
def secretKeyField (env dotenv : List (String × String)) : Except FieldError String :=
  match getField env dotenv "secret_key" with
  | none => .error ⟨"secret_key", .missing⟩
  | some s => .ok s

/-- Resolved `access_token_expire_minutes` field: parsed integer or
default `30`. -/
def accessTokenField (env dotenv : List (String × String)) : Except FieldError Int :=
  match getField env dotenv "access_token_expire_minutes" with
  | none => .ok 30
  | some s =>
      match parseIntStr s with
      | some n => .ok n
      | none => .error ⟨"access_token_expire_minutes", .intParse⟩

/-- Errors contributed by one fallible field. -/
def errOf {α : Type} : Except FieldError α → List FieldError
  | .ok _ => []
  | .error e => [e]

/-- Construct `Settings` from the process environment and the `.env` file,
collecting every per-field validation error, as `Settings()` does at module
load in `config.py`. -/
def buildSettings (env dotenv : List (String × String)) :
    Except (List FieldError) Settings :=
  match apiPortField env dotenv, corsOriginsField env dotenv,
        secretKeyField env dotenv, accessTokenField env dotenv with
  | .ok p, .ok c, .ok k, .ok m =>
      .ok { database_url := databaseUrlField env dotenv
            api_host := apiHostField env dotenv
            api_port := p
            cors_origins := c
            secret_key := k
            algorithm := algorithmField env dotenv
            access_token_expire_minutes := m }
  | a, c, k, m => .error (errOf a ++ errOf c ++ errOf k ++ errOf m)

/-- The cross-origin policy installed by `app.add_middleware(CORSMiddleware, ...)`. -/
structure CORSPolicy where
  allow_origins : List String
  allow_credentials : Bool
  allow_methods : List String
  allow_headers : List String
deriving DecidableEq, Repr

/-- An incoming HTTP request: method, path, headers, query string, body. -/
structure Request where
  method : String
  path : String
  headers : List (String × String)
  query : String
  body : String
deriving DecidableEq, Repr

/-- An HTTP response: status code, a flat JSON object body (field name to
string value), and the middleware stack that was applied to it. -/
structure Response where
  status : Nat
  body : List (String × String)
  appliedMiddleware : List CORSPolicy
deriving DecidableEq, Repr

/-- Handler of `GET /` in `main.py`: a constant JSON object. -/
def read_root : List (String × String) :=
  [("message", "Hello World!")]

/-- Handler of `GET /health` in `main.py`: a constant JSON object. -/
def read_health_status : List (String × String) :=
  [("status", "healthy")]

/-- One registered route: its method, path, and handler. -/
structure Route where
  method : String
  path : String
  handler : Request → List (String × String)

/-- The FastAPI application object: title, version, the middleware stack
and the registered routes. -/
structure App where
  title : String
  version : String
  middlewares : List CORSPolicy
  routes : List Route

/-- Construction of the application in `main.py`: one CORS middleware
driven by `settings.cors_origins`, and exactly the two routes. -/
def mkApp (s : Settings) : App :=
  { title := "CMS API"
    version := "0.1.0"
    middlewares := [{ allow_origins := s.cors_origins
                      allow_credentials := true
                      allow_methods := ["*"]
                      allow_headers := ["*"] }]
    routes := [⟨"GET", "/", fun _ => read_root⟩,
               ⟨"GET", "/health", fun _ => read_health_status⟩] }

/-- Framework dispatch: a matching route's handler produces a 200 JSON
response, otherwise 404; the app-level middleware stack applies to every
response uniformly. -/
def handleRequest (a : App) (r : Request) : Response :=
  match a.routes.find? (fun rt => rt.method == r.method && rt.path == r.path) with
  | some rt => { status := 200, body := rt.handler r, appliedMiddleware := a.middlewares }
  | none => { status := 404, body := [("detail", "Not Found")], appliedMiddleware := a.middlewares }

/-- Process state after startup: the settings singleton constructed at
module load of `config.py`, and the application built from it in `main.py`. -/
structure ProcState where
  settings : Settings
  app : App

/-- Process startup: construct the settings singleton from the environment
sources once, then build the application from it.  A validation error
aborts startup. -/
def startup (env dotenv : List (String × String)) :
    Except (List FieldError) ProcState :=
  match buildSettings env dotenv with
  | .error es => .error es
  | .ok s => .ok ⟨s, mkApp s⟩

/-- Serve one request.  `envNow` is the process environment at request
time; the handlers in `main.py` never read it and never assign to the
settings object, so the state is passed through unchanged. -/
def stepRequest (st : ProcState) (_envNow : List (String × String))
    (r : Request) : ProcState × Response :=
  (st, handleRequest st.app r)

/-- Spec-side restatement of the per-field source resolution: every field of
a constructed Settings value comes from the merged sources (environment over
file), falling back to its compiled-in default, with integer and list fields
parsed from their string form. -/
def settingsFromSources (env dotenv : List (String × String)) (s : Settings) : Prop :=
  s.database_url = (getField env dotenv "database_url").getD "file:./dev.db" ∧
  s.api_host = (getField env dotenv "api_host").getD "0.0.0.0" ∧
  (match getField env dotenv "api_port" with
   | none => s.api_port = 8000
   | some v => parseIntStr v = some s.api_port) ∧
  (match getField env dotenv "cors_origins" with
   | none => s.cors_origins = ["http://localhost:3000"]
   | some v => parseStrList v = some s.cors_origins) ∧
  getField env dotenv "secret_key" = some s.secret_key ∧
  s.algorithm = (getField env dotenv "algorithm").getD "HS256" ∧
  (match getField env dotenv "access_token_expire_minutes" with
   | none => s.access_token_expire_minutes = 30
   | some v => parseIntStr v = some s.access_token_expire_minutes)

/-- Inversion helper: a successful construction determines every field from
the merged sources as `settingsFromSources` states. -/
theorem buildSettings_ok_fields (env dotenv : List (String × String)) (s : Settings)
    (h : buildSettings env dotenv = Except.ok s) : settingsFromSources env dotenv s := by
  rcases hap : apiPortField env dotenv with e | p <;>
  rcases hc : corsOriginsField env dotenv with e2 | c <;>
  rcases hk : secretKeyField env dotenv with e3 | k <;>
  rcases hm : accessTokenField env dotenv with e4 | m <;>
  simp [buildSettings, hap, hc, hk, hm] at h
  subst h
  refine ⟨rfl, rfl, ?_, ?_, ?_, rfl, ?_⟩
  · rcases hraw : getField env dotenv "api_port" with _ | v <;>
      simp [apiPortField, hraw] at hap
    · simpa using hap.symm
    · rcases hps : parseIntStr v with _ | n <;> simp [hps] at hap
      simp [hps, hap]
  · rcases hraw : getField env dotenv "cors_origins" with _ | v <;>
      simp [corsOriginsField, hraw] at hc
    · simpa using hc.symm
    · rcases hps : parseStrList v with _ | l <;> simp [hps] at hc
      simp [hps, hc]
  · rcases hraw : getField env dotenv "secret_key" with _ | v <;>
      simp [secretKeyField, hraw] at hk
    simp [hraw, hk]
  · rcases hraw : getField env dotenv "access_token_expire_minutes" with _ | v <;>
      simp [accessTokenField, hraw] at hm
    · simpa using hm.symm
    · rcases hps : parseIntStr v with _ | n <;> simp [hps] at hm
      simp [hps, hm]

/-- Replacing each key of an environment by a key with the same lowercasing
leaves case-insensitive lookup unchanged. -/
theorem lookupCI_recase (env : List (String × String))
    (f : String × String → String × String)
    (hf : ∀ kv ∈ env, lowerStr (f kv).1 = lowerStr kv.1 ∧ (f kv).2 = kv.2)
    (name : String) :
    lookupCI (env.map f) name = lookupCI env name := by
  induction env with
  | nil => rfl
  | cons kv rest ih =>
    have h1 := hf kv (List.mem_cons_self _ _)
    have ih' := ih (fun x hx => hf x (List.mem_cons_of_mem _ hx))
    simp only [List.map_cons, lookupCI, h1.1, h1.2, ih']

/-- The middleware stack recorded on a response is always the app-level
stack, for every request and every route (matched or not). -/
theorem appliedMiddleware_eq (a : App) (r : Request) :
    (handleRequest a r).appliedMiddleware = a.middlewares := by
  unfold handleRequest
  split <;> rfl

/-- C1: when neither the process environment nor the environment file
supplies `secret_key`, constructing Settings fails with a validation error
naming the missing field `secret_key`; construction never succeeds for such
input. -/
theorem missing_secret_key_fails (env dotenv : List (String × String))
    (henv : lookupCI env "secret_key" = none)
    (hfile : lookupCI dotenv "secret_key" = none) :
    ∃ es, buildSettings env dotenv = Except.error es ∧
      (⟨"secret_key", FieldErrorKind.missing⟩ : FieldError) ∈ es := by
  have hsec : secretKeyField env dotenv = .error ⟨"secret_key", .missing⟩ := by
    simp [secretKeyField, getField, henv, hfile]
  rcases hap : apiPortField env dotenv with e | p <;>
  rcases hc : corsOriginsField env dotenv with e2 | c <;>
  rcases hm : accessTokenField env dotenv with e3 | m <;>
  simp [buildSettings, hap, hc, hm, hsec, errOf]

/-- Witness for C1 at a concrete environment that supplies other fields but
not `secret_key`. -/
theorem missing_secret_key_fails_witness :
    lookupCI [("API_HOST", "example.host")] "secret_key" = none ∧
    ∃ es, buildSettings [("API_HOST", "example.host")] [("algorithm", "HS512")] =
        Except.error es ∧
      (⟨"secret_key", FieldErrorKind.missing⟩ : FieldError) ∈ es :=
  ⟨rfl, missing_secret_key_fails [("API_HOST", "example.host")] [("algorithm", "HS512")] rfl rfl⟩

/-- C2: when the sources supply `secret_key` and nothing else, construction
succeeds and every other field takes exactly its documented default. -/
theorem defaults_with_only_secret_key (env dotenv : List (String × String)) (k : String)
    (hs : getField env dotenv "secret_key" = some k)
    (h1 : getField env dotenv "database_url" = none)
    (h2 : getField env dotenv "api_host" = none)
    (h3 : getField env dotenv "api_port" = none)
    (h4 : getField env dotenv "cors_origins" = none)
    (h5 : getField env dotenv "algorithm" = none)
    (h6 : getField env dotenv "access_token_expire_minutes" = none) :
    buildSettings env dotenv =
      Except.ok ⟨"file:./dev.db", "0.0.0.0", 8000, ["http://localhost:3000"], k, "HS256", 30⟩ := by
  simp [buildSettings, apiPortField, corsOriginsField, secretKeyField, accessTokenField,
        databaseUrlField, apiHostField, algorithmField, hs, h1, h2, h3, h4, h5, h6]

/-- Witness for C2 at the concrete environment of the repository's own
default-values test. -/
theorem defaults_with_only_secret_key_witness :
    buildSettings [("SECRET_KEY", "test-secret-key")] [] =
      Except.ok ⟨"file:./dev.db", "0.0.0.0", 8000, ["http://localhost:3000"],
        "test-secret-key", "HS256", 30⟩ :=
  defaults_with_only_secret_key [("SECRET_KEY", "test-secret-key")] [] "test-secret-key"
    rfl rfl rfl rfl rfl rfl rfl

/-- C3 counterexample: supplying `SECRET_KEY` as the empty string is
accepted — construction succeeds and yields an empty `secret_key`, because
the field's type enforces presence but not non-emptiness. -/
theorem empty_secret_key_accepted :
    buildSettings [("SECRET_KEY", "")] [] =
      Except.ok ⟨"file:./dev.db", "0.0.0.0", 8000, ["http://localhost:3000"], "", "HS256", 30⟩ :=
  rfl

/-- C3 amended: after every successful construction, `secret_key` is
exactly the string some source supplied (it is never defaulted), but that
string may be empty. -/
theorem secret_key_from_source (env dotenv : List (String × String)) (s : Settings)
    (h : buildSettings env dotenv = Except.ok s) :
    getField env dotenv "secret_key" = some s.secret_key :=
  (buildSettings_ok_fields env dotenv s h).2.2.2.2.1

/-- Witness for the amended C3 at a concrete environment. -/
theorem secret_key_from_source_witness :
    getField [("SECRET_KEY", "s3cr3t")] [] "secret_key" =
      some (Settings.mk "file:./dev.db" "0.0.0.0" 8000 ["http://localhost:3000"]
        "s3cr3t" "HS256" 30).secret_key :=
  secret_key_from_source [("SECRET_KEY", "s3cr3t")] [] _ rfl

/-- C4 counterexample: supplying `CORS_ORIGINS` as the encoded empty list
is accepted — construction succeeds with `cors_origins` empty, so the field
is not non-empty for every valid input source. -/
theorem empty_cors_list_accepted :
    buildSettings [("SECRET_KEY", "k"), ("CORS_ORIGINS", "[]")] [] =
      Except.ok ⟨"file:./dev.db", "0.0.0.0", 8000, [], "k", "HS256", 30⟩ :=
  rfl

/-- C4 amended: after every successful construction, `cors_origins` is an
ordered sequence of strings: the non-empty default when no source supplies
it, and otherwise exactly the decoded string-encoded list, which is
non-empty whenever the encoded list is. -/
theorem cors_origins_from_source (env dotenv : List (String × String)) (s : Settings)
    (h : buildSettings env dotenv = Except.ok s) :
    (getField env dotenv "cors_origins" = none → s.cors_origins = ["http://localhost:3000"]) ∧
    (∀ v, getField env dotenv "cors_origins" = some v → parseStrList v = some s.cors_origins) := by
  have h4 := (buildSettings_ok_fields env dotenv s h).2.2.2.1
  have h4' := h4
  constructor
  · intro hraw
    rw [hraw] at h4
    exact h4
  · intro v hraw
    rw [hraw] at h4'
    exact h4'

/-- Witness for the amended C4: the default applies in the test
environment of the repository, and a supplied two-element list decodes to
those two origins. -/
theorem cors_origins_from_source_witness :
    (Settings.mk "file:./dev.db" "0.0.0.0" 8000 ["http://localhost:3000"]
        "k" "HS256" 30).cors_origins = ["http://localhost:3000"] ∧
    parseStrList "[\"http://a.example\", \"http://b.example\"]" =
      some (Settings.mk "file:./dev.db" "0.0.0.0" 8000
        ["http://a.example", "http://b.example"] "k" "HS256" 30).cors_origins :=
  ⟨(cors_origins_from_source [("SECRET_KEY", "k")] [] _ rfl).1 rfl,
   (cors_origins_from_source
      [("SECRET_KEY", "k"), ("CORS_ORIGINS", "[\"http://a.example\", \"http://b.example\"]")] [] _
      rfl).2 _ rfl⟩

/-- C5: environment key matching is case-insensitive — recasing every key
of the process environment (keeping its lowercasing and its value) yields
the same construction result, so any casing of `SECRET_KEY` satisfies the
required-field constraint identically. -/
theorem env_matching_case_insensitive (env dotenv : List (String × String))
    (f : String × String → String × String)
    (hf : ∀ kv ∈ env, lowerStr (f kv).1 = lowerStr kv.1 ∧ (f kv).2 = kv.2) :
    buildSettings (env.map f) dotenv = buildSettings env dotenv := by
  have hg : ∀ name, getField (env.map f) dotenv name = getField env dotenv name := by
    intro name
    unfold getField
    rw [lookupCI_recase env f hf name]
  simp [buildSettings, apiPortField, corsOriginsField, secretKeyField, accessTokenField,
        databaseUrlField, apiHostField, algorithmField, hg]

/-- Witness for C5: `SeCrEt_KeY` and `secret_key` are interchangeable keys. -/
theorem env_matching_case_insensitive_witness :
    buildSettings ([("secret_key", "k")].map (fun kv => ("SeCrEt_KeY", kv.2))) [] =
      buildSettings [("secret_key", "k")] [] :=
  env_matching_case_insensitive [("secret_key", "k")] [] (fun kv => ("SeCrEt_KeY", kv.2))
    (by
      intro kv hkv
      rw [List.mem_singleton] at hkv
      subst hkv
      exact ⟨rfl, rfl⟩)

/-- C6: source priority — a process environment value wins over the file
and the default, a file value wins over the default when the environment is
silent, and every field of a successful construction is resolved from the
merged sources in exactly this way. -/
theorem source_priority (env dotenv : List (String × String)) (name : String) :
    (∀ v, lookupCI env name = some v → getField env dotenv name = some v) ∧
    (lookupCI env name = none → getField env dotenv name = lookupCI dotenv name) ∧
    (∀ s, buildSettings env dotenv = Except.ok s → settingsFromSources env dotenv s) := by
  refine ⟨?_, ?_, fun s h => buildSettings_ok_fields env dotenv s h⟩
  · intro v hv
    simp [getField, hv]
  · intro hn
    simp [getField, hn]

/-- Witness for C6: the environment beats the file, the file beats the
default, and a concrete successful construction is source-resolved. -/
theorem source_priority_witness :
    getField [("API_HOST", "envhost")] [("api_host", "filehost")] "api_host" = some "envhost" ∧
    getField [("SECRET_KEY", "k")] [("database_url", "filedb")] "database_url" = some "filedb" ∧
    settingsFromSources [("SECRET_KEY", "k")] []
      ⟨"file:./dev.db", "0.0.0.0", 8000, ["http://localhost:3000"], "k", "HS256", 30⟩ :=
  ⟨(source_priority [("API_HOST", "envhost")] [("api_host", "filehost")] "api_host").1
      "envhost" rfl,
   ((source_priority [("SECRET_KEY", "k")] [("database_url", "filedb")] "database_url").2.1
      rfl).trans rfl,
   (source_priority [("SECRET_KEY", "k")] [] "secret_key").2.2 _ rfl⟩

/-- C7: `api_port` parses as an integer with no bounds validation — for
every integer-valued `API_PORT` string, including values outside 1–65535,
construction succeeds with `api_port` equal to that integer. -/
theorem api_port_unbounded (env dotenv : List (String × String)) (n : Int) (v k : String)
    (hport : getField env dotenv "api_port" = some v)
    (hp : parseIntStr v = some n)
    (hs : getField env dotenv "secret_key" = some k)
    (h1 : getField env dotenv "database_url" = none)
    (h2 : getField env dotenv "api_host" = none)
    (h4 : getField env dotenv "cors_origins" = none)
    (h5 : getField env dotenv "algorithm" = none)
    (h6 : getField env dotenv "access_token_expire_minutes" = none) :
    buildSettings env dotenv =
      Except.ok ⟨"file:./dev.db", "0.0.0.0", n, ["http://localhost:3000"], k, "HS256", 30⟩ := by
  simp [buildSettings, apiPortField, corsOriginsField, secretKeyField, accessTokenField,
        databaseUrlField, apiHostField, algorithmField, hport, hp, hs, h1, h2, h4, h5, h6]

/-- Witness for C7 at the out-of-range ports 0 and 70000. -/
theorem api_port_unbounded_witness :
    (parseIntStr "0" = some 0 ∧
      buildSettings [("SECRET_KEY", "k"), ("API_PORT", "0")] [] =
        Except.ok ⟨"file:./dev.db", "0.0.0.0", 0, ["http://localhost:3000"], "k", "HS256", 30⟩) ∧
    (parseIntStr "70000" = some 70000 ∧
      buildSettings [("SECRET_KEY", "k"), ("API_PORT", "70000")] [] =
        Except.ok ⟨"file:./dev.db", "0.0.0.0", 70000, ["http://localhost:3000"], "k", "HS256", 30⟩) :=
  ⟨⟨rfl, api_port_unbounded [("SECRET_KEY", "k"), ("API_PORT", "0")] [] 0 "0" "k"
      rfl rfl rfl rfl rfl rfl rfl rfl⟩,
   ⟨rfl, api_port_unbounded [("SECRET_KEY", "k"), ("API_PORT", "70000")] [] 70000 "70000" "k"
      rfl rfl rfl rfl rfl rfl rfl rfl⟩⟩

/-- C8: for every settings value and every request — whatever its headers,
query string or body — `GET /` responds 200 with body
`message: Hello World!` and `GET /health` responds 200 with body
`status: healthy`. -/
theorem static_routes_respond (s : Settings) (r : Request) :
    (r.method = "GET" → r.path = "/" →
      (handleRequest (mkApp s) r).status = 200 ∧
      (handleRequest (mkApp s) r).body = [("message", "Hello World!")]) ∧
    (r.method = "GET" → r.path = "/health" →
      (handleRequest (mkApp s) r).status = 200 ∧
      (handleRequest (mkApp s) r).body = [("status", "healthy")]) := by
  constructor <;> intro hm hp <;>
    simp [handleRequest, mkApp, List.find?, hm, hp, read_root, read_health_status]

/-- Witness for C8 at concrete requests carrying headers, a query string
and a body, against a concrete settings value. -/
theorem static_routes_respond_witness :
    ((handleRequest
        (mkApp ⟨"file:./dev.db", "0.0.0.0", 8000, ["http://localhost:3000"], "k", "HS256", 30⟩)
        ⟨"GET", "/", [("x-test", "1")], "q=1", "ignored-body"⟩).status = 200 ∧
      (handleRequest
        (mkApp ⟨"file:./dev.db", "0.0.0.0", 8000, ["http://localhost:3000"], "k", "HS256", 30⟩)
        ⟨"GET", "/", [("x-test", "1")], "q=1", "ignored-body"⟩).body =
          [("message", "Hello World!")]) ∧
    ((handleRequest
        (mkApp ⟨"file:./dev.db", "0.0.0.0", 8000, ["http://localhost:3000"], "k", "HS256", 30⟩)
        ⟨"GET", "/health", [], "", ""⟩).status = 200 ∧
      (handleRequest
        (mkApp ⟨"file:./dev.db", "0.0.0.0", 8000, ["http://localhost:3000"], "k", "HS256", 30⟩)
        ⟨"GET", "/health", [], "", ""⟩).body = [("status", "healthy")]) :=
  ⟨(static_routes_respond
      ⟨"file:./dev.db", "0.0.0.0", 8000, ["http://localhost:3000"], "k", "HS256", 30⟩
      ⟨"GET", "/", [("x-test", "1")], "q=1", "ignored-body"⟩).1 rfl rfl,
   (static_routes_respond
      ⟨"file:./dev.db", "0.0.0.0", 8000, ["http://localhost:3000"], "k", "HS256", 30⟩
      ⟨"GET", "/health", [], "", ""⟩).2 rfl rfl⟩

/-- C9: the application installs exactly one cross-origin policy — allowed
origins equal `settings.cors_origins`, credentials allowed, all methods and
all headers allowed — and that single policy is the one applied to every
response, for every request. -/
theorem cors_policy_static (s : Settings) (r : Request) :
    (mkApp s).middlewares =
      [{ allow_origins := s.cors_origins, allow_credentials := true,
         allow_methods := ["*"], allow_headers := ["*"] }] ∧
    (handleRequest (mkApp s) r).appliedMiddleware =
      [{ allow_origins := s.cors_origins, allow_credentials := true,
         allow_methods := ["*"], allow_headers := ["*"] }] :=
  ⟨rfl, (appliedMiddleware_eq (mkApp s) r).trans rfl⟩

/-- C10: after a successful startup the application is the one built from
the single settings instance constructed at module load, and serving a
request neither mutates that state nor re-reads the environment — the
response is independent of the process environment at request time. -/
theorem settings_read_once (env dotenv : List (String × String)) (st : ProcState)
    (h : startup env dotenv = Except.ok st) :
    st.app = mkApp st.settings ∧
    (∀ envNow r, (stepRequest st envNow r).1 = st) ∧
    (∀ envNow envNow2 r, stepRequest st envNow r = stepRequest st envNow2 r) := by
  rcases hb : buildSettings env dotenv with es | s <;> simp [startup, hb] at h
  subst h
  exact ⟨rfl, fun _ _ => rfl, fun _ _ _ => rfl⟩

/-- Witness for C10: a concrete started process is unchanged by serving a
request even when the environment has changed since startup. -/
theorem settings_read_once_witness :
    (stepRequest
        ⟨⟨"file:./dev.db", "0.0.0.0", 8000, ["http://localhost:3000"], "k", "HS256", 30⟩,
          mkApp ⟨"file:./dev.db", "0.0.0.0", 8000, ["http://localhost:3000"], "k", "HS256", 30⟩⟩
        [("SECRET_KEY", "changed-after-startup")]
        ⟨"GET", "/", [], "", ""⟩).1 =
      ⟨⟨"file:./dev.db", "0.0.0.0", 8000, ["http://localhost:3000"], "k", "HS256", 30⟩,
        mkApp ⟨"file:./dev.db", "0.0.0.0", 8000, ["http://localhost:3000"], "k", "HS256", 30⟩⟩ :=
  (settings_read_once [("SECRET_KEY", "k")] [] _ rfl).2.1
    [("SECRET_KEY", "changed-after-startup")] ⟨"GET", "/", [], "", ""⟩

end WebApp
